import Mathlib

/-!
Verification development for the mcp-wp WordPress MCP server.

The two subsystems under study are embedded shallowly:
* the content-type directory cache and cross-type resolver
  (`src/tools/unified-content.ts`), and
* the multi-site registry / client manager (`SiteManager`).

JavaScript-specific semantics (truthiness of `undefined`/empty strings,
`Map#set` replace-or-append behaviour, `a || b` defaulting) are modelled by
small explicit helper functions.  External effects (the remote HTTP API, the
on-disk cache file, `Date.now()`) are passed in as explicit oracle values, so
every function is a pure state transformer over them.
-/

set_option autoImplicit false

deriving instance DecidableEq for Except

namespace McpWp

/-- JS `String#split` with a one-character separator, over the character
list. -/
def splitChar (c : Char) : List Char → List (List Char)
  | [] => [[]]
  | x :: xs =>
    if x == c then [] :: splitChar c xs
    else
      match splitChar c xs with
      | h :: t => (x :: h) :: t
      | [] => [[x]]

/-- JS `String#split` with a one-character separator. -/
def jsSplitChar (s : String) (c : Char) : List String :=
  (splitChar c s.data).map String.mk

/-- JS `String#endsWith`. -/
def jsEndsWith (s suffix : String) : Bool :=
  List.isPrefixOf suffix.data.reverse s.data.reverse

/-- Substring occurrence over character lists. -/
def listIsInfix (pat : List Char) : List Char → Bool
  | [] => List.isPrefixOf pat []
  | x :: xs => List.isPrefixOf pat (x :: xs) || listIsInfix pat xs

/-- JS `String#includes`. -/
def containsSubstr (s pat : String) : Bool :=
  listIsInfix pat.data s.data

/-- JS truthiness of an optional string value: `undefined` and the empty
string are falsy, every other string is truthy. -/
def truthy : Option String → Bool
  | none => false
  | some s => !(s == "")

/-- JS `v || d` for an optional string `v`: keep `v` when truthy, else `d`. -/
def jsOrString (v : Option String) (d : String) : String :=
  match v with
  | some s => if s == "" then d else s
  | none => d

/-- JS object / `Map` lookup on an insertion-ordered association list. -/
def mapGet {α : Type} (m : List (String × α)) (k : String) : Option α :=
  (m.find? (fun p => p.1 == k)).map (fun p => p.2)

/-- JS `Map#set`: replace the entry in place when the key is present,
otherwise append at the end (insertion order is preserved). -/
def mapSet {α : Type} (m : List (String × α)) (k : String) (v : α) : List (String × α) :=
  if m.any (fun p => p.1 == k) then
    m.map (fun p => if p.1 == k then (k, v) else p)
  else
    m ++ [(k, v)]

/- ===================================================================
   Content-type directory cache  (src/tools/unified-content.ts)
   =================================================================== -/

/-- One record of the remote type-discovery response (`GET types`).  Only the
fields inspected by the code under study are kept; the remaining metadata
fields (description, hierarchical, supports, taxonomies) are never read by
`getContentEndpoint` and are elided. -/
structure TypeMeta where
  name : String := ""
  rest_base : Option String := none
  deriving DecidableEq, Repr

/-- The type-discovery response: a JS object keyed by content-type slug. -/
abbrev Directory := List (String × TypeMeta)

/-- Content of the durable cache file `content-types-default.json`:
`{data, timestamp}`. -/
structure DiskCache where
  data : Directory
  timestamp : Int
  deriving DecidableEq, Repr

/-- The module-level mutable cache of unified-content.ts:
`postTypesCache` / `cacheTimestamp`. -/
structure CacheState where
  postTypesCache : Option Directory
  cacheTimestamp : Int
  deriving DecidableEq, Repr

/-- External world of one `getPostTypes` call: the clock, the configured
freshness duration, the outcome of `loadCacheFromDisk` (`none` covers both a
missing file and a read error, which that helper swallows), the outcome of
the network fetch `GET types`, and whether the best-effort disk write of
`saveCacheToDisk` succeeds (its own errors are swallowed as well). -/
structure World where
  now : Int
  cacheDuration : Int
  disk : Option DiskCache
  fetch : Except String Directory
  diskWriteOk : Bool

/-- Result of one `getPostTypes` call: the returned (or thrown) value, the
module cache state afterwards, the durable cache content afterwards, and the
number of network fetches performed. -/
structure TypesResult where
  out : Except String Directory
  st : CacheState
  disk : Option DiskCache
  fetches : Nat

/-- The final branch of `getPostTypes` (lines 76-89): fetch from the API,
update both cache tiers on success (the disk write being best-effort),
re-throw on failure. -/
def getPostTypesFetch (st : CacheState) (w : World) : TypesResult :=
  match w.fetch with
  | .ok response =>
    { out := .ok response
      st := { postTypesCache := some response, cacheTimestamp := w.now }
      disk := if w.diskWriteOk then some { data := response, timestamp := w.now } else w.disk
      fetches := 1 }
  | .error e => { out := .error e, st := st, disk := w.disk, fetches := 1 }

/-- `getPostTypes(forceRefresh)` (unified-content.ts lines 55-90): memory
tier, then disk tier, then network. -/
def getPostTypes (forceRefresh : Bool) (st : CacheState) (w : World) : TypesResult :=
  -- `if (!forceRefresh && postTypesCache && (now - cacheTimestamp) < CACHE_DURATION)`
  if !forceRefresh && st.postTypesCache.isSome
      && decide (w.now - st.cacheTimestamp < w.cacheDuration) then
    { out := .ok (st.postTypesCache.getD []), st := st, disk := w.disk, fetches := 0 }
  else if !forceRefresh then
    -- `if (diskCache && (now - diskCache.timestamp) < CACHE_DURATION)`
    match w.disk with
    | some dc =>
      if w.now - dc.timestamp < w.cacheDuration then
        { out := .ok dc.data
          st := { postTypesCache := some dc.data, cacheTimestamp := dc.timestamp }
          disk := w.disk
          fetches := 0 }
      else getPostTypesFetch st w
    | none => getPostTypesFetch st w
  else getPostTypesFetch st w

/-- The `standardMap` object of `getContentEndpoint`. -/
def standardMap (contentType : String) : Option String :=
  if contentType == "post" then some "posts"
  else if contentType == "page" then some "pages"
  else none

/-- JS truthiness filter for the `rest_base` field: `undefined` and the empty
string are falsy. -/
def truthyStr : Option String → Option String
  | some s => if s == "" then none else some s
  | none => none

/-- Result of one `getContentEndpoint` call: resolved endpoint path segment,
cache state and durable cache afterwards, network fetches performed. -/
structure EndpointResult where
  endpoint : String
  st : CacheState
  disk : Option DiskCache
  fetches : Nat

/-- `getContentEndpoint` (unified-content.ts lines 93-117): built-in types
resolve from `standardMap` with no lookup; other slugs consult the directory
(errors caught), falling back to the slug itself. -/
def getContentEndpoint (contentType : String) (st : CacheState) (w : World) : EndpointResult :=
  match standardMap contentType with
  | some e => { endpoint := e, st := st, disk := w.disk, fetches := 0 }
  | none =>
    let r := getPostTypes false st w
    match r.out with
    | .ok postTypes =>
      -- `if (postTypes[contentType] && postTypes[contentType].rest_base)`
      match (mapGet postTypes contentType).bind (fun m => truthyStr m.rest_base) with
      | some rb => { endpoint := rb, st := r.st, disk := r.disk, fetches := r.fetches }
      | none => { endpoint := contentType, st := r.st, disk := r.disk, fetches := r.fetches }
    | .error _ => { endpoint := contentType, st := r.st, disk := r.disk, fetches := r.fetches }

/- ===================================================================
   parseUrl  (src/tools/unified-content.ts lines 120-139)
   =================================================================== -/

structure ParsedUrl where
  slug : String
  pathHints : List String
  deriving DecidableEq, Repr

/-- One application of `pathname.replace(/\/$/, '')`: drop a single trailing
slash when present. -/
def stripTrailingSlash (s : String) : String :=
  if jsEndsWith s "/" then String.mk s.data.dropLast else s

/-- JS `arr[i] || d` for an array of strings: out-of-range access yields
`undefined`, and `undefined` and the empty string both fall back to `d`. -/
def jsIndexOr (l : List String) (i : Nat) (d : String) : String :=
  match l.get? i with
  | some s => if s == "" then d else s
  | none => d

/-- The segment list computed by `parseUrl`:
`pathname.replace(/\/$/, '').split('/').filter(Boolean)`. -/
def pathSegments (pathname : String) : List String :=
  (jsSplitChar (stripTrailingSlash pathname) '/').filter (fun s => !(s == ""))

/-- `parseUrl` (lines 120-139).  The platform URL parse
(`new URL(url).pathname`) is a runtime built-in external to the repository;
its outcome is passed in as `pathname?`, with `none` standing for a malformed
URL (the `URL` constructor throwing, caught on line 135). -/
def parseUrl (pathname? : Option String) : ParsedUrl :=
  match pathname? with
  | none => { slug := "", pathHints := [] }
  | some pathname =>
    let pathParts := pathSegments pathname
    -- `const slug = pathParts[pathParts.length - 1] || ''`
    let slug := jsIndexOr pathParts (pathParts.length - 1) ""
    -- `const pathHints = pathParts.slice(0, -1)`
    let pathHints := pathParts.dropLast
    { slug := slug, pathHints := pathHints }

/- ===================================================================
   findContentAcrossTypes  (src/tools/unified-content.ts lines 142-206)
   =================================================================== -/

/-- Shape of one raw response to
`makeWordPressRequest('GET', endpoint, {slug, per_page: 1})`: an array of
content records, or any non-array value (`Array.isArray` false). -/
inductive SlugResp (Content : Type) where
  | arr (items : List Content)
  | nonArray
  deriving DecidableEq, Repr

/-- A resolver hit: `{content: response[0], contentType}`. -/
structure Found (Content : Type) where
  content : Content
  contentType : String
  deriving DecidableEq, Repr

/-- The per-type lookup body shared by both search modes (lines 160-175 and
186-201).  `fixture` gives, per content type, the outcome of the endpoint
resolution plus the slug query for that type (`.error` models the request
throwing).  An error is caught and treated as a miss; a non-empty array
response is a hit. -/
def perTypeSearch {Content : Type} (fixture : String → Except String (SlugResp Content))
    (contentType : String) : Option (Found Content) :=
  match fixture contentType with
  | .error _ => none
  | .ok (.arr (c :: _)) => some { content := c, contentType := contentType }
  | .ok (.arr []) => none
  | .ok .nonArray => none

/-- The sequential branch (lines 185-202): short-circuit on the first hit. -/
def seqSearch {Content : Type} (fixture : String → Except String (SlugResp Content)) :
    List String → Option (Found Content)
  | [] => none
  | t :: ts =>
    match perTypeSearch fixture t with
    | some f => some f
    | none => seqSearch fixture ts

/-- The parallel branch (lines 159-183): `Promise.all` yields the per-type
results in input order regardless of completion order, then
`results.find(result => result !== null)` picks the first non-null one and
`if (found) return found` falls through to `null` otherwise. -/
def parSearch {Content : Type} (fixture : String → Except String (SlugResp Content))
    (typesToSearch : List String) : Option (Found Content) :=
  let results := typesToSearch.map (perTypeSearch fixture)
  match results.find? (fun r => r.isSome) with
  | some (some f) => some f
  | _ => none

/-- `findContentAcrossTypes` (lines 142-206), over an already-expanded
candidate list (the expansion from the directory when `contentTypes` is
omitted happens before the mode branch and is identical in both modes).
`enableParallel` models `WORDPRESS_PARALLEL_SEARCH !== 'false'`. -/
def findContentAcrossTypes {Content : Type} (enableParallel : Bool)
    (typesToSearch : List String)
    (fixture : String → Except String (SlugResp Content)) : Option (Found Content) :=
  if enableParallel && decide (typesToSearch.length > 1) then
    parSearch fixture typesToSearch
  else
    seqSearch fixture typesToSearch

/- ===================================================================
   Site registry and client manager  (SiteManager, src/site-manager.ts)
   =================================================================== -/

/-- The environment variables of one numbered slot `WORDPRESS_{i}_*`.
`none` is an unset variable. -/
structure EnvSlot where
  url : Option String := none
  username : Option String := none
  password : Option String := none
  id : Option String := none
  aliases : Option String := none
  defaultFlag : Option String := none
  deriving DecidableEq, Repr

/-- The process environment as seen by `loadSitesFromEnvironment`: the
numbered slots plus the legacy single-site variables. -/
structure Env where
  slots : Nat → EnvSlot
  apiUrl : Option String := none
  legacyUsername : Option String := none
  legacyPassword : Option String := none

/-- `SiteConfig` of site-manager.ts. -/
structure SiteConfig where
  id : String
  url : String
  username : String
  password : String
  aliases : Option (List String) := none
  default : Bool := false
  deriving DecidableEq, Repr

/-- The registry portion of the manager state built by
`loadSitesFromEnvironment`: the `sites` map and `defaultSiteId`. -/
structure Registry where
  sites : List (String × SiteConfig) := []
  defaultSiteId : Option String := none
  deriving DecidableEq, Repr

/-- Slot validity (line 48): URL, username and password all truthy. -/
def validSlot (env : Env) (i : Nat) : Bool :=
  truthy (env.slots i).url && truthy (env.slots i).username && truthy (env.slots i).password

/-- The `SiteConfig` literal built for a valid slot (lines 49-56), given the
running `sitesFound` counter. -/
def slotConfig (env : Env) (i : Nat) (sitesFound : Nat) : SiteConfig :=
  let s := env.slots i
  { id := jsOrString s.id ("site" ++ toString i)
    url := s.url.getD ""
    username := s.username.getD ""
    password := s.password.getD ""
    aliases :=
      if truthy s.aliases then some ((jsSplitChar (s.aliases.getD "") ',').map String.trim)
      else none
    default := s.defaultFlag == some "true" || (sitesFound == 0 && i == 1) }

/-- The site id a valid slot is registered under. -/
def slotId (env : Env) (i : Nat) : String :=
  jsOrString (env.slots i).id ("site" ++ toString i)

/-- One iteration of the numbered-slot loop (lines 40-64), threading the
registry under construction and the `sitesFound` counter. -/
def loadSlot (env : Env) (acc : Registry × Nat) (i : Nat) : Registry × Nat :=
  if validSlot env i then
    let cfg := slotConfig env i acc.2
    ({ sites := mapSet acc.1.sites cfg.id cfg
       defaultSiteId := if cfg.default then some cfg.id else acc.1.defaultSiteId },
     acc.2 + 1)
  else acc

/-- `for (let i = 1; i <= 10; i++)`. -/
abbrev slotIndices : List Nat := [1, 2, 3, 4, 5, 6, 7, 8, 9, 10]

/-- The numbered-slot scan (lines 40-64): registry plus final `sitesFound`. -/
def loadNumbered (env : Env) : Registry × Nat :=
  slotIndices.foldl (loadSlot env) ({ sites := [], defaultSiteId := none }, 0)

/-- The `SiteConfig` of the legacy single-site fallback (lines 68-74). -/
def legacyConfig (env : Env) : SiteConfig :=
  { id := "default"
    url := env.apiUrl.getD ""
    username := env.legacyUsername.getD ""
    password := env.legacyPassword.getD ""
    default := true }

/-- `loadSitesFromEnvironment` (lines 36-89): scan the ten numbered slots,
fall back to the legacy single-site variables when none matched, and throw
when no configuration at all was found. -/
def loadSitesFromEnvironment (env : Env) : Except String Registry :=
  if (loadNumbered env).2 == 0 && truthy env.apiUrl && truthy env.legacyUsername
      && truthy env.legacyPassword then
    .ok { sites := mapSet (loadNumbered env).1.sites "default" (legacyConfig env)
          defaultSiteId := some "default" }
  else if (loadNumbered env).2 > 0 then .ok (loadNumbered env).1
  else .error "No WordPress configuration found. Set WORDPRESS_1_URL, WORDPRESS_1_USERNAME, WORDPRESS_1_PASSWORD (and optionally WORDPRESS_2_*, etc.) or use legacy WORDPRESS_API_URL variables."

/-- Specification-side step: slot `i` overwrites the running default site id
exactly when it is valid and either declares `WORDPRESS_{N}_DEFAULT=true`
explicitly or is slot 1 (which always receives the first-site fallback,
since `sitesFound` is necessarily 0 when slot 1 is processed). -/
def defaultStep (env : Env) (a : Option String) (i : Nat) : Option String :=
  if validSlot env i && ((env.slots i).defaultFlag == some "true" || i == 1) then
    some (slotId env i)
  else a

/-- The site id of the highest-numbered slot that wins `defaultSiteId`:
the specification-side characterisation proved equal to the loaded
`defaultSiteId`. -/
def lastDefaultId (env : Env) : Option String :=
  slotIndices.foldl (defaultStep env) none

/-- An authenticated axios client.  The Basic-auth header is derived from
`username:password`; the base64 encoding step is injective and elided, so the
raw credentials are carried instead. -/
structure Client where
  baseURL : String
  authUser : String
  authPass : String
  deriving DecidableEq, Repr

/-- The full manager state of `SiteManager`: the ambient process environment,
the `sites` map, the per-site client cache, `defaultSiteId`, and the lazy
`initialized` flag. -/
structure Mgr where
  env : Env
  sites : List (String × SiteConfig) := []
  clients : List (String × Client) := []
  defaultSiteId : Option String := none
  initialized : Bool := false

/-- Base-URL normalization of `createClient` (lines 193-200). -/
def normalizeBaseURL (url : String) : String :=
  let baseURL := if jsEndsWith url "/" then url else url ++ "/"
  if !containsSubstr baseURL "/wp-json/wp/v2" then baseURL ++ "wp-json/wp/v2/"
  else if !jsEndsWith baseURL "/" then baseURL ++ "/"
  else baseURL

/-- The client object built by `createClient` before the probe. -/
def baseClient (site : SiteConfig) : Client :=
  { baseURL := normalizeBaseURL site.url
    authUser := site.username
    authPass := site.password }

/-- `ensureInitialized` (lines 26-31): on first access run the registry load;
a throw there leaves the manager uninitialized and propagates. -/
def ensureInitialized (m : Mgr) : Except String Mgr :=
  if m.initialized then .ok m
  else
    match loadSitesFromEnvironment m.env with
    | .ok r =>
      .ok { m with sites := r.sites, defaultSiteId := r.defaultSiteId, initialized := true }
    | .error e => .error e

/-- `siteId || this.defaultSiteId` (line 97). -/
def resolveTarget (siteId : Option String) (defaultSiteId : Option String) : Option String :=
  match siteId with
  | some s => if s == "" then defaultSiteId else some s
  | none => defaultSiteId

/-- `getSite` (lines 94-109). -/
def getSite (m : Mgr) (siteId : Option String) : Except String (SiteConfig × Mgr) :=
  match ensureInitialized m with
  | .error e => .error e
  | .ok m =>
    match resolveTarget siteId m.defaultSiteId with
    | none => .error "No site specified and no default site configured"
    | some tid =>
      match mapGet m.sites tid with
      | some site => .ok (site, m)
      | none =>
        .error ("Site " ++ tid ++ " not found. Available sites: "
          ++ String.intercalate ", " (m.sites.map (fun p => p.1)))

/-- Result of `createClient`: the client or the thrown connection error, and
the number of connectivity probes issued. -/
structure ClientResult where
  out : Except String Client
  probes : Nat

/-- `createClient` (lines 192-222).  The remote's answer to `GET baseURL` is
the oracle `net`: `none` is a 2xx success, `some msg` a failure with that
error message. -/
def createClient (net : String → Option String) (site : SiteConfig) : ClientResult :=
  let client := baseClient site
  match net client.baseURL with
  | none => { out := .ok client, probes := 1 }
  | some msg =>
    { out := .error ("Failed to connect to site " ++ site.id ++ ": " ++ msg), probes := 1 }

/-- Result of `getClient`: outcome, manager state afterwards, probes issued. -/
structure GetClientResult where
  out : Except String Client
  mgr : Mgr
  probes : Nat

/-- `getClient` (lines 176-187): resolve the site, return the cached client
when present, otherwise construct (probing once) and cache only on success. -/
def getClient (net : String → Option String) (m : Mgr) (siteId : Option String) :
    GetClientResult :=
  match ensureInitialized m with
  | .error e => { out := .error e, mgr := m, probes := 0 }
  | .ok m =>
    match getSite m siteId with
    | .error e => { out := .error e, mgr := m, probes := 0 }
    | .ok (site, m) =>
      match mapGet m.clients site.id with
      | some c => { out := .ok c, mgr := m, probes := 0 }
      | none =>
        let r := createClient net site
        match r.out with
        | .ok c =>
          { out := .ok c
            mgr := { m with clients := mapSet m.clients site.id c }
            probes := r.probes }
        | .error e => { out := .error e, mgr := m, probes := r.probes }

/-- The record returned by `testSite`. -/
structure TestResult where
  success : Bool
  error : Option String := none
  deriving DecidableEq, Repr

/-- Result of `testSite`: `.error` in `out` is an exception escaping
`testSite` itself. -/
structure TestSiteResult where
  out : Except String TestResult
  mgr : Mgr
  probes : Nat

/-- `testSite` (lines 227-237).  `ensureInitialized` runs before the
`try` block, so a registry-load throw escapes; everything inside the `try`
(client resolution and the extra `client.get('')` probe) is converted to a
`{success, error?}` record. -/
def testSite (net : String → Option String) (m : Mgr) (siteId : Option String) :
    TestSiteResult :=
  match ensureInitialized m with
  | .error e => { out := .error e, mgr := m, probes := 0 }
  | .ok m =>
    let g := getClient net m siteId
    match g.out with
    | .error e =>
      { out := .ok { success := false, error := some e }, mgr := g.mgr, probes := g.probes }
    | .ok client =>
      match net client.baseURL with
      | none => { out := .ok { success := true }, mgr := g.mgr, probes := g.probes + 1 }
      | some msg =>
        { out := .ok { success := false, error := some msg }
          mgr := g.mgr
          probes := g.probes + 1 }

/- ===================================================================
   Concrete inputs used by counterexamples and witnesses
   =================================================================== -/

/-- An empty process environment: no numbered slots, no legacy variables. -/
def envEmpty : Env := { slots := fun _ => {} }

/-- Slot 1 invalid (unset), slot 2 fully valid, no slot declares
`WORDPRESS_{N}_DEFAULT`. -/
def envSlot2Only : Env :=
  { slots := fun i =>
      if i = 2 then
        { url := some "https://b.example", username := some "u2", password := some "p2" }
      else {} }

/-- Slots 1 and 2 both valid and both explicitly `WORDPRESS_{N}_DEFAULT=true`. -/
def envTwoDefaults : Env :=
  { slots := fun i =>
      if i = 1 then
        { url := some "https://a.example", username := some "u1", password := some "p1"
          defaultFlag := some "true" }
      else if i = 2 then
        { url := some "https://b.example", username := some "u2", password := some "p2"
          defaultFlag := some "true" }
      else {} }

/-- A single-site environment used by manager witnesses. -/
def envOneSite : Env :=
  { slots := fun i =>
      if i = 1 then
        { url := some "https://a.example", username := some "u1", password := some "p1" }
      else {} }

/-- The site record slot 1 of `envOneSite` loads to. -/
def siteA : SiteConfig :=
  { id := "site1", url := "https://a.example", username := "u1", password := "p1"
    default := true }

/-- An already-initialized manager holding exactly `siteA`, empty client
cache. -/
def mgrA : Mgr :=
  { env := envOneSite
    sites := [("site1", siteA)]
    clients := []
    defaultSiteId := some "site1"
    initialized := true }

/-- A per-type lookup fixture: type `a` errors, type `b` has the slug,
type `c` misses. -/
def fxABC : String → Except String (SlugResp Nat) :=
  fun t =>
    if t == "a" then .error "boom"
    else if t == "b" then .ok (.arr [7])
    else .ok (.arr [])

/-- A small content-type directory with one custom type. -/
def dirMovies : Directory := [("movie", { name := "Movies", rest_base := some "movies" })]

/-- A memory cache state holding `dirMovies` with timestamp 1000. -/
def stMovies : CacheState := { postTypesCache := some dirMovies, cacheTimestamp := 1000 }

/-- A world where the memory snapshot above is fresh and the network is
down. -/
def wMovies : World :=
  { now := 1500, cacheDuration := 3600000, disk := none, fetch := .error "offline"
    diskWriteOk := true }

/-- A world with stale/absent caches and a healthy network returning
`dirMovies`. -/
def wFetch : World :=
  { now := 5000000000, cacheDuration := 3600000, disk := none, fetch := .ok dirMovies
    diskWriteOk := false }

/- ===================================================================
   Helper lemmas
   =================================================================== -/

theorem find?_map_set {α : Type} (k : String) (v : α) :
    ∀ l : List (String × α), l.any (fun p => p.1 == k) = true →
      (l.map (fun p => if p.1 == k then (k, v) else p)).find? (fun p => p.1 == k)
        = some (k, v)
  | [], h => by simp at h
  | a :: t, h => by
    rw [List.map_cons]
    by_cases hk : (a.1 == k) = true
    · rw [if_pos hk]
      simp only [List.find?_cons, beq_self_eq_true]
    · have hk' : (a.1 == k) = false := by simpa using hk
      rw [if_neg hk]
      have ht : t.any (fun p => p.1 == k) = true := by
        simpa [List.any_cons, hk'] using h
      simp only [List.find?_cons, hk']
      exact find?_map_set k v t ht

theorem mapGet_mapSet_self {α : Type} (l : List (String × α)) (k : String) (v : α) :
    mapGet (mapSet l k v) k = some v := by
  unfold mapGet mapSet
  by_cases h : l.any (fun p => p.1 == k) = true
  · rw [if_pos h, find?_map_set k v l h]
    rfl
  · rw [if_neg h]
    have hnone : l.find? (fun p => p.1 == k) = none := by
      rw [List.find?_eq_none]
      intro x hx hpx
      exact h (List.any_eq_true.mpr ⟨x, hx, hpx⟩)
    rw [List.find?_append, hnone]
    simp [List.find?_cons]

theorem seqSearch_eq_findSome? {Content : Type}
    (fixture : String → Except String (SlugResp Content)) (l : List String) :
    seqSearch fixture l = l.findSome? (perTypeSearch fixture) := by
  induction l with
  | nil => rfl
  | cons t ts ih =>
    rw [seqSearch, List.findSome?_cons]
    cases perTypeSearch fixture t <;> simp [ih]

theorem parSearch_eq_seqSearch {Content : Type}
    (fixture : String → Except String (SlugResp Content)) (l : List String) :
    parSearch fixture l = seqSearch fixture l := by
  induction l with
  | nil => rfl
  | cons t ts ih =>
    rw [parSearch, seqSearch]
    cases hpt : perTypeSearch fixture t with
    | some f => simp [List.find?_cons, hpt]
    | none => simpa [List.find?_cons, hpt, parSearch] using ih

theorem findContentAcrossTypes_eq_findSome? {Content : Type} (mode : Bool)
    (l : List String) (fixture : String → Except String (SlugResp Content)) :
    findContentAcrossTypes mode l fixture = l.findSome? (perTypeSearch fixture) := by
  unfold findContentAcrossTypes
  split
  · rw [parSearch_eq_seqSearch, seqSearch_eq_findSome?]
  · rw [seqSearch_eq_findSome?]

theorem findSome?_congr {α β : Type} (l : List α) (f g : α → Option β)
    (h : ∀ x ∈ l, f x = g x) : l.findSome? f = l.findSome? g := by
  induction l with
  | nil => rfl
  | cons a t ih =>
    rw [List.findSome?_cons, List.findSome?_cons, h a (List.mem_cons_self a t),
      ih (fun x hx => h x (List.mem_cons_of_mem a hx))]

theorem jsIndexOr_last (l : List String) (h : ∀ s ∈ l, s ≠ "") :
    jsIndexOr l (l.length - 1) "" = (l.getLast?).getD "" := by
  unfold jsIndexOr
  rw [← List.getLast?_eq_get?]
  cases hl : l.getLast? with
  | none => rfl
  | some s =>
    have hs : s ∈ l := List.mem_of_mem_getLast? hl
    have hne : (s == "") = false := beq_false_of_ne (h s hs)
    simp [hne]

theorem pathSegments_ne_empty (p : String) : ∀ s ∈ pathSegments p, s ≠ "" := by
  intro s hs
  have := List.of_mem_filter hs
  simpa using this

/- ===================================================================
   Claim theorems
   =================================================================== -/

/-- C5 (confirmed): for the same fixture of per-type lookup results,
`findContentAcrossTypes` returns the same output in parallel mode as in
sequential mode, and in both modes the winner is the first candidate type in
original list order whose lookup returns a non-empty result (`Promise.all`
delivers its results in input order, so completion order cannot influence the
selection). -/
theorem findContentAcrossTypes_mode_agnostic {Content : Type} (typesToSearch : List String)
    (fixture : String → Except String (SlugResp Content)) :
    findContentAcrossTypes true typesToSearch fixture
      = findContentAcrossTypes false typesToSearch fixture ∧
    findContentAcrossTypes true typesToSearch fixture
      = typesToSearch.findSome? (perTypeSearch fixture) := by
  constructor
  · rw [findContentAcrossTypes_eq_findSome?, findContentAcrossTypes_eq_findSome?]
  · rw [findContentAcrossTypes_eq_findSome?]

/-- C7 (confirmed): resolving the built-in content types `post` and `page`
uses only `standardMap`: the result is `posts` / `pages`, no directory lookup
or network fetch happens, and the cache state (memory tier and durable tier)
is returned unchanged, whatever that state is. -/
theorem getContentEndpoint_builtin (st : CacheState) (w : World) :
    getContentEndpoint "post" st w
      = { endpoint := "posts", st := st, disk := w.disk, fetches := 0 } ∧
    getContentEndpoint "page" st w
      = { endpoint := "pages", st := st, disk := w.disk, fetches := 0 } :=
  ⟨rfl, rfl⟩

/-- C8 (confirmed): for any slug other than `post` and `page`, when the
directory lookup succeeds and the slug carries a truthy `rest_base`, that
`rest_base` is the endpoint; when the slug is absent from the directory, or
the directory fetch throws, the slug itself is returned unchanged. -/
theorem getContentEndpoint_lookup (contentType : String) (st : CacheState) (w : World)
    (h1 : contentType ≠ "post") (h2 : contentType ≠ "page") :
    (∀ d rb, (getPostTypes false st w).out = .ok d →
      (mapGet d contentType).bind (fun meta => truthyStr meta.rest_base) = some rb →
      (getContentEndpoint contentType st w).endpoint = rb) ∧
    (∀ d, (getPostTypes false st w).out = .ok d → mapGet d contentType = none →
      (getContentEndpoint contentType st w).endpoint = contentType) ∧
    (∀ e, (getPostTypes false st w).out = .error e →
      (getContentEndpoint contentType st w).endpoint = contentType) := by
  have hsm : standardMap contentType = none := by
    unfold standardMap
    rw [if_neg (by simpa using h1), if_neg (by simpa using h2)]
  refine ⟨?_, ?_, ?_⟩
  · intro d rb hout hrb
    unfold getContentEndpoint
    rw [hsm]
    simp only [hout, hrb]
  · intro d hout hmiss
    unfold getContentEndpoint
    rw [hsm]
    simp only [hout, hmiss, Option.none_bind]
  · intro e hout
    unfold getContentEndpoint
    rw [hsm]
    simp only [hout]

/-- Witness for C8 at a concrete directory: the custom type `movie` with
`rest_base = "movies"` resolves to `movies` from a fresh memory cache. -/
theorem getContentEndpoint_lookup_witness :
    (getContentEndpoint "movie" stMovies wMovies).endpoint = "movies" :=
  (getContentEndpoint_lookup "movie" stMovies wMovies (by decide) (by decide)).1
    dirMovies "movies" rfl rfl

/-- C9 (confirmed): `parseUrl` on a well-formed URL returns the last
non-empty path segment (after stripping one trailing slash) as the slug and
the preceding segments as path hints; a malformed URL (the platform `URL`
constructor throwing) yields `{slug := "", pathHints := []}`; and on
`https://site.com/documentation/api-guide/` — whose pathname is
`/documentation/api-guide/` — the result is slug `api-guide` with path hints
`[documentation]`. -/
theorem parseUrl_spec :
    (∀ p : String,
      (parseUrl (some p)).slug = ((pathSegments p).getLast?).getD "" ∧
      (parseUrl (some p)).pathHints = (pathSegments p).dropLast) ∧
    parseUrl none = { slug := "", pathHints := [] } ∧
    parseUrl (some "/documentation/api-guide/")
      = { slug := "api-guide", pathHints := ["documentation"] } := by
  refine ⟨?_, rfl, by decide⟩
  intro p
  exact ⟨jsIndexOr_last (pathSegments p) (pathSegments_ne_empty p), rfl⟩

/-- C10 (confirmed): an error from one per-type lookup never escapes
`findContentAcrossTypes` in either mode: the failing type behaves exactly
like a type whose lookup returned an empty array (the search continues with
the remaining candidates), and the overall result is `none` exactly when
every candidate type misses or fails. -/
theorem findContentAcrossTypes_error_resilient {Content : Type} (mode : Bool)
    (typesToSearch : List String) (fixture : String → Except String (SlugResp Content))
    (t : String) (e : String) (he : fixture t = .error e) :
    findContentAcrossTypes mode typesToSearch fixture
      = findContentAcrossTypes mode typesToSearch
          (fun u => if u == t then .ok (.arr []) else fixture u) ∧
    (findContentAcrossTypes mode typesToSearch fixture = none ↔
      ∀ u ∈ typesToSearch, perTypeSearch fixture u = none) := by
  constructor
  · rw [findContentAcrossTypes_eq_findSome?, findContentAcrossTypes_eq_findSome?]
    apply findSome?_congr
    intro u _
    by_cases hu : (u == t) = true
    · have : u = t := eq_of_beq hu
      subst this
      simp [perTypeSearch, he]
    · have hu' : (u == t) = false := by simpa using hu
      simp [perTypeSearch, hu']
  · rw [findContentAcrossTypes_eq_findSome?]
    exact List.findSome?_eq_none_iff

/-- Witness for C10: with candidate types `a, b, c` where `a` errors and `b`
holds the slug, the erroring type is skipped and both conclusions hold at the
concrete fixture. -/
theorem findContentAcrossTypes_error_resilient_witness :
    findContentAcrossTypes true ["a", "b", "c"] fxABC
      = findContentAcrossTypes true ["a", "b", "c"]
          (fun u => if u == "a" then .ok (.arr []) else fxABC u) ∧
    (findContentAcrossTypes true ["a", "b", "c"] fxABC = none ↔
      ∀ u ∈ ["a", "b", "c"], perTypeSearch fxABC u = none) :=
  findContentAcrossTypes_error_resilient true ["a", "b", "c"] fxABC "a" "boom" rfl

/-- C6 (confirmed): `getPostTypes(false)` serves a fresh memory snapshot
first; with the memory tier stale or empty it adopts a fresh disk snapshot
(data and timestamp) into memory; otherwise it fetches, replacing the memory
snapshot and timestamp and best-effort persisting to disk — the returned
value and memory state are independent of whether the disk write succeeds.
`getPostTypes(true)` goes straight to the fetch, bypassing both tiers. -/
theorem getPostTypes_tier_priority (st : CacheState) (w : World) :
    (∀ d, st.postTypesCache = some d → w.now - st.cacheTimestamp < w.cacheDuration →
      getPostTypes false st w = { out := .ok d, st := st, disk := w.disk, fetches := 0 }) ∧
    (∀ dc, (st.postTypesCache = none ∨ ¬ w.now - st.cacheTimestamp < w.cacheDuration) →
      w.disk = some dc → w.now - dc.timestamp < w.cacheDuration →
      getPostTypes false st w =
        { out := .ok dc.data
          st := { postTypesCache := some dc.data, cacheTimestamp := dc.timestamp }
          disk := w.disk
          fetches := 0 }) ∧
    (∀ d, (st.postTypesCache = none ∨ ¬ w.now - st.cacheTimestamp < w.cacheDuration) →
      (∀ dc, w.disk = some dc → ¬ w.now - dc.timestamp < w.cacheDuration) →
      w.fetch = .ok d →
      getPostTypes false st w =
        { out := .ok d
          st := { postTypesCache := some d, cacheTimestamp := w.now }
          disk := if w.diskWriteOk then some { data := d, timestamp := w.now } else w.disk
          fetches := 1 }) ∧
    getPostTypes true st w = getPostTypesFetch st w := by
  have hstale : (st.postTypesCache = none ∨ ¬ w.now - st.cacheTimestamp < w.cacheDuration) →
      (!false && st.postTypesCache.isSome
        && decide (w.now - st.cacheTimestamp < w.cacheDuration)) = false := by
    rintro (h | h)
    · simp [h]
    · simp [h]
  refine ⟨?_, ?_, ?_, rfl⟩
  · intro d hmem hfresh
    unfold getPostTypes
    simp [hmem, hfresh]
  · intro dc hs hdisk hfresh
    unfold getPostTypes
    rw [hstale hs]
    simp [hdisk, hfresh]
  · intro d hs hdstale hfetch
    unfold getPostTypes
    rw [hstale hs]
    cases hdisk : w.disk with
    | none => simp [getPostTypesFetch, hfetch, hdisk]
    | some dc =>
      have := hdstale dc hdisk
      simp [this, getPostTypesFetch, hfetch, hdisk]

/-- Witness for C6 at the concrete fresh memory state: the snapshot is
served with no fetch and no state change. -/
theorem getPostTypes_tier_priority_witness :
    getPostTypes false stMovies wMovies
      = { out := .ok dirMovies, st := stMovies, disk := wMovies.disk, fetches := 0 } :=
  (getPostTypes_tier_priority stMovies wMovies).1 dirMovies rfl (by decide)

/- ===================================================================
   Registry fold lemmas
   =================================================================== -/

theorem loadSlot_defaultSiteId_step (env : Env) (acc : Registry × Nat) (i : Nat)
    (hi : i ≠ 1) :
    ((loadSlot env acc i).1).defaultSiteId = defaultStep env acc.1.defaultSiteId i := by
  unfold loadSlot defaultStep
  have hbeq : (i == 1) = false := beq_false_of_ne hi
  by_cases hv : validSlot env i = true
  · simp [hv, slotConfig, slotId, hbeq]
  · have hv' : validSlot env i = false := by simpa using hv
    simp [hv']

theorem foldl_loadSlot_defaultSiteId (env : Env) :
    ∀ (L : List Nat) (acc : Registry × Nat), (∀ i ∈ L, i ≠ 1) →
      ((L.foldl (loadSlot env) acc).1).defaultSiteId
        = L.foldl (defaultStep env) acc.1.defaultSiteId
  | [], _, _ => rfl
  | t :: ts, acc, h => by
    rw [List.foldl_cons, List.foldl_cons,
      foldl_loadSlot_defaultSiteId env ts (loadSlot env acc t)
        (fun i hi => h i (List.mem_cons_of_mem t hi)),
      loadSlot_defaultSiteId_step env acc t (h t (List.mem_cons_self t ts))]

theorem loadSlot_found_mono (env : Env) (acc : Registry × Nat) (i : Nat) :
    acc.2 ≤ (loadSlot env acc i).2 := by
  unfold loadSlot
  split
  · exact Nat.le_succ _
  · exact Nat.le_refl _

theorem foldl_loadSlot_found_mono (env : Env) :
    ∀ (L : List Nat) (acc : Registry × Nat), acc.2 ≤ (L.foldl (loadSlot env) acc).2
  | [], _ => Nat.le_refl _
  | t :: ts, acc => by
    rw [List.foldl_cons]
    exact Nat.le_trans (loadSlot_found_mono env acc t)
      (foldl_loadSlot_found_mono env ts _)

theorem foldl_loadSlot_found_pos (env : Env) :
    ∀ (L : List Nat) (acc : Registry × Nat), (∃ i ∈ L, validSlot env i = true) →
      0 < (L.foldl (loadSlot env) acc).2
  | [], _, h => by simp at h
  | t :: ts, acc, h => by
    rw [List.foldl_cons]
    rcases h with ⟨i, hmem, hvi⟩
    rcases List.mem_cons.mp hmem with rfl | hits
    · have hstep : (loadSlot env acc i).2 = acc.2 + 1 := by
        unfold loadSlot
        rw [if_pos hvi]
      have hmono := foldl_loadSlot_found_mono env ts (loadSlot env acc i)
      omega
    · exact foldl_loadSlot_found_pos env ts _ ⟨i, hits, hvi⟩

theorem loadSites_ok_of_found_pos (env : Env) (hpos : 0 < (loadNumbered env).2) :
    loadSitesFromEnvironment env = .ok (loadNumbered env).1 := by
  unfold loadSitesFromEnvironment
  have h0 : ((loadNumbered env).2 == 0) = false := by
    simp [Nat.pos_iff_ne_zero.mp hpos]
  rw [h0]
  simp [hpos]

theorem loadSlot_head_default (env : Env) :
    ((loadSlot env ({ sites := [], defaultSiteId := none }, 0) 1).1).defaultSiteId
      = (if validSlot env 1 then some (slotId env 1) else none) := by
  unfold loadSlot
  by_cases hv : validSlot env 1 = true
  · simp [hv, slotConfig, slotId]
  · have hv' : validSlot env 1 = false := by simpa using hv
    simp [hv']

theorem defaultStep_head (env : Env) :
    defaultStep env none 1 = (if validSlot env 1 then some (slotId env 1) else none) := by
  unfold defaultStep
  by_cases hv : validSlot env 1 = true
  · simp [hv]
  · have hv' : validSlot env 1 = false := by simpa using hv
    simp [hv']

theorem foldl_defaultStep_frozen (env : Env) :
    ∀ (L : List Nat) (a : Option String), (∀ i ∈ L, i ≠ 1) →
      (∀ i ∈ L, validSlot env i = true → (env.slots i).defaultFlag ≠ some "true") →
      L.foldl (defaultStep env) a = a
  | [], _, _, _ => rfl
  | t :: ts, a, h1, h2 => by
    rw [List.foldl_cons]
    have hstep : defaultStep env a t = a := by
      unfold defaultStep
      by_cases hv : validSlot env t = true
      · have hexp : ((env.slots t).defaultFlag == some "true") = false :=
          beq_false_of_ne (h2 t (List.mem_cons_self t ts) hv)
        have h1' : ((t : Nat) == 1) = false :=
          beq_false_of_ne (h1 t (List.mem_cons_self t ts))
        simp [hv, hexp, h1']
      · have hv' : validSlot env t = false := by simpa using hv
        simp [hv']
    rw [hstep]
    exact foldl_defaultStep_frozen env ts a
      (fun i hi => h1 i (List.mem_cons_of_mem t hi))
      (fun i hi => h2 i (List.mem_cons_of_mem t hi))

/-- `defaultSiteId` after the numbered scan equals the specification-side
fold: slot 1 first (fallback applies there only), then the remaining slots
where only an explicit declaration can overwrite. -/
theorem loadNumbered_defaultSiteId (env : Env) :
    ((loadNumbered env).1).defaultSiteId = lastDefaultId env := by
  have htail : ∀ i ∈ [2, 3, 4, 5, 6, 7, 8, 9, 10], i ≠ (1 : Nat) := by decide
  unfold loadNumbered lastDefaultId
  rw [show (slotIndices : List Nat)
      = 1 :: [2, 3, 4, 5, 6, 7, 8, 9, 10] from rfl]
  rw [@List.foldl_cons Nat (Registry × Nat) 1 (loadSlot env)
      [2, 3, 4, 5, 6, 7, 8, 9, 10] ({ sites := [], defaultSiteId := none }, 0),
    @List.foldl_cons Nat (Option String) 1 (defaultStep env)
      [2, 3, 4, 5, 6, 7, 8, 9, 10] none,
    foldl_loadSlot_defaultSiteId env [2, 3, 4, 5, 6, 7, 8, 9, 10] _ htail,
    loadSlot_head_default env, defaultStep_head env]

/- ===================================================================
   Registry claim theorems (C1, C2)
   =================================================================== -/

/-- Counterexample for C1: slot 1 is invalid and slot 2 is the first (and
only) valid slot, no slot declares an explicit default — yet after loading
no site is the default (`defaultSiteId` is `none`, not `site2`), because the
first-site fallback in the code fires only when `i === 1`. -/
theorem registry_no_default_when_slot1_invalid :
    validSlot envSlot2Only 1 = false ∧
    validSlot envSlot2Only 2 = true ∧
    (∀ i ∈ slotIndices, ¬ (envSlot2Only.slots i).defaultFlag = some "true") ∧
    (loadSitesFromEnvironment envSlot2Only).map Registry.defaultSiteId ≠ .ok (some "site2") ∧
    (loadSitesFromEnvironment envSlot2Only).map Registry.defaultSiteId = .ok none := by
  refine ⟨rfl, rfl, by decide, by decide, rfl⟩

/-- C1 (corrected): the first-valid-site default fallback applies only to
slot 1.  In any environment where some numbered slot is valid and no valid
slot declares an explicit default, loading succeeds and the default site is
slot 1's site when slot 1 itself is valid, and there is no default site at
all when slot 1 is invalid — even if a valid slot N > 1 exists. -/
theorem registry_default_fallback_slot1_only (env : Env)
    (hnoexp : ∀ i ∈ slotIndices, validSlot env i = true →
      (env.slots i).defaultFlag ≠ some "true")
    (hvalid : ∃ i ∈ slotIndices, validSlot env i = true) :
    ∃ r, loadSitesFromEnvironment env = .ok r ∧
      r.defaultSiteId = (if validSlot env 1 then some (slotId env 1) else none) := by
  have hpos := foldl_loadSlot_found_pos env slotIndices
    ({ sites := [], defaultSiteId := none }, 0) hvalid
  refine ⟨(loadNumbered env).1, loadSites_ok_of_found_pos env hpos, ?_⟩
  rw [loadNumbered_defaultSiteId]
  unfold lastDefaultId
  rw [show (slotIndices : List Nat) = 1 :: [2, 3, 4, 5, 6, 7, 8, 9, 10] from rfl,
    List.foldl_cons]
  rw [foldl_defaultStep_frozen env [2, 3, 4, 5, 6, 7, 8, 9, 10] _
    (by decide)
    (fun i hi => hnoexp i (List.mem_cons_of_mem 1 hi))]
  exact defaultStep_head env

/-- Witness for C1 (corrected) at `envSlot2Only`: loading succeeds and the
computed default is `none`, since slot 1 is invalid there. -/
theorem registry_default_fallback_slot1_only_witness :
    ∃ r, loadSitesFromEnvironment envSlot2Only = .ok r ∧
      r.defaultSiteId
        = (if validSlot envSlot2Only 1 then some (slotId envSlot2Only 1) else none) :=
  registry_default_fallback_slot1_only envSlot2Only (by decide) ⟨2, by decide, rfl⟩

/-- Counterexample for C2: slots 1 and 2 are both valid and both declare
`WORDPRESS_{N}_DEFAULT=true`.  After loading, `defaultSiteId` is `site2` —
the LAST declaring slot, not the first — and both loaded records carry
`default=true`, so neither first-wins nor at-most-one-default holds. -/
theorem registry_multiple_defaults_cx :
    validSlot envTwoDefaults 1 = true ∧
    validSlot envTwoDefaults 2 = true ∧
    (envTwoDefaults.slots 1).defaultFlag = some "true" ∧
    (envTwoDefaults.slots 2).defaultFlag = some "true" ∧
    (loadSitesFromEnvironment envTwoDefaults).map Registry.defaultSiteId ≠ .ok (some "site1") ∧
    (loadSitesFromEnvironment envTwoDefaults).map Registry.defaultSiteId = .ok (some "site2") ∧
    (loadSitesFromEnvironment envTwoDefaults).map
      (fun r => (r.sites.filter (fun p => p.2.default)).length) = .ok 2 := by
  refine ⟨rfl, rfl, rfl, rfl, by decide, rfl, rfl⟩

/-- C2 (corrected): when several valid slots explicitly declare default, the
registry keeps `default=true` on every declaring record, and `defaultSiteId`
(hence `getDefaultSiteId()`) is the id of the highest-numbered winning slot —
last-wins, not first-wins.  Precisely: whenever at least one numbered slot is
valid, loading succeeds and `defaultSiteId` equals `lastDefaultId`, the id of
the last slot that is valid and either declares default explicitly or is
slot 1 (fallback). -/
theorem registry_default_last_wins (env : Env)
    (hvalid : ∃ i ∈ slotIndices, validSlot env i = true) :
    ∃ r, loadSitesFromEnvironment env = .ok r ∧
      r.defaultSiteId = lastDefaultId env ∧
      (∀ i n, (env.slots i).defaultFlag = some "true" →
        (slotConfig env i n).default = true) := by
  have hpos := foldl_loadSlot_found_pos env slotIndices
    ({ sites := [], defaultSiteId := none }, 0) hvalid
  refine ⟨(loadNumbered env).1, loadSites_ok_of_found_pos env hpos,
    loadNumbered_defaultSiteId env, ?_⟩
  intro i n h
  simp [slotConfig, h]

/-- Witness for C2 (corrected) at `envTwoDefaults`: loading succeeds,
`defaultSiteId` equals `lastDefaultId envTwoDefaults` (= `site2`), and both
declaring records carry `default=true`. -/
theorem registry_default_last_wins_witness :
    ∃ r, loadSitesFromEnvironment envTwoDefaults = .ok r ∧
      r.defaultSiteId = lastDefaultId envTwoDefaults ∧
      (∀ i n, (envTwoDefaults.slots i).defaultFlag = some "true" →
        (slotConfig envTwoDefaults i n).default = true) :=
  registry_default_last_wins envTwoDefaults ⟨1, by decide, rfl⟩

/- ===================================================================
   Manager claim theorems (C3, C4)
   =================================================================== -/

/-- Counterexample for C3: in an environment with zero configured sites, the
lazy `ensureInitialized()` call — which sits before the `try` block of
`testSite` — throws the registry-load configuration error, and that throw
escapes `testSite` instead of being converted to `{success:false, error}`. -/
theorem testSite_throws_on_zero_sites :
    (testSite (fun _ => none) { env := envEmpty } none).out
      = .error "No WordPress configuration found. Set WORDPRESS_1_URL, WORDPRESS_1_USERNAME, WORDPRESS_1_PASSWORD (and optionally WORDPRESS_2_*, etc.) or use legacy WORDPRESS_API_URL variables." :=
  rfl

/-- C3 (corrected): once the registry can load (the manager is initialized,
or its environment resolves at least one site), `testSite` never throws for
any site id and any connectivity outcome: it returns a `{success, error?}`
record, with a message attached exactly when it reports failure.  (With zero
configured sites the lazy load throws from `testSite`, see the
counterexample.) -/
theorem testSite_never_throws_once_configured (net : String → Option String) (m : Mgr)
    (siteId : Option String)
    (h : m.initialized = true ∨ ∃ r, loadSitesFromEnvironment m.env = .ok r) :
    ∃ res, (testSite net m siteId).out = .ok res ∧
      (res.success = false → ∃ msg, res.error = some msg) ∧
      (res.success = true → res.error = none) := by
  obtain ⟨m2, hm2⟩ : ∃ m2, ensureInitialized m = .ok m2 := by
    unfold ensureInitialized
    rcases h with h | ⟨r, hr⟩
    · exact ⟨m, by rw [if_pos h]⟩
    · by_cases hi : m.initialized = true
      · exact ⟨m, by rw [if_pos hi]⟩
      · exact ⟨_, by rw [if_neg hi, hr]⟩
  unfold testSite
  rw [hm2]
  cases hg : (getClient net m2 siteId).out with
  | error e =>
    refine ⟨{ success := false, error := some e }, by simp [hg], ?_, ?_⟩
    · intro _
      exact ⟨e, rfl⟩
    · intro hc
      simp at hc
  | ok client =>
    cases hn : net client.baseURL with
    | none =>
      refine ⟨{ success := true }, by simp [hg, hn], ?_, ?_⟩
      · intro hc
        simp at hc
      · intro _
        rfl
    | some msg =>
      refine ⟨{ success := false, error := some msg }, by simp [hg, hn], ?_, ?_⟩
      · intro _
        exact ⟨msg, rfl⟩
      · intro hc
        simp at hc

/-- Witness for C3 (corrected): a one-site environment with a healthy probe
yields an `ok` record from `testSite`. -/
theorem testSite_never_throws_witness :
    ∃ res, (testSite (fun _ => none) { env := envOneSite } none).out = .ok res ∧
      (res.success = false → ∃ msg, res.error = some msg) ∧
      (res.success = true → res.error = none) :=
  testSite_never_throws_once_configured (fun _ => none) { env := envOneSite } none
    (.inr ⟨_, rfl⟩)

/-- C4 (confirmed): the client-cache invariant of `getClient`.  For an
initialized manager whose registry resolves `siteId` to `site`:
(a) a cached client is returned as-is with no connectivity probe;
(b) with no cache entry and a succeeding probe, the constructed client is
cached under the site id after exactly one probe, and an immediately
following call returns that same cached client with zero probes;
(c) with no cache entry and a failing probe, the error propagates carrying
the site id and the underlying message, the manager state — in particular
the cache — is unchanged, so a repeat call probes again. -/
theorem getClient_cache_invariant (net : String → Option String) (m : Mgr)
    (siteId : Option String) (tid : String) (site : SiteConfig)
    (hinit : m.initialized = true)
    (htid : resolveTarget siteId m.defaultSiteId = some tid)
    (hsite : mapGet m.sites tid = some site) :
    (∀ c, mapGet m.clients site.id = some c →
      getClient net m siteId = { out := .ok c, mgr := m, probes := 0 }) ∧
    (mapGet m.clients site.id = none → net (normalizeBaseURL site.url) = none →
      getClient net m siteId =
        { out := .ok (baseClient site)
          mgr := { m with clients := mapSet m.clients site.id (baseClient site) }
          probes := 1 } ∧
      getClient net { m with clients := mapSet m.clients site.id (baseClient site) } siteId =
        { out := .ok (baseClient site)
          mgr := { m with clients := mapSet m.clients site.id (baseClient site) }
          probes := 0 }) ∧
    (∀ msg, mapGet m.clients site.id = none → net (normalizeBaseURL site.url) = some msg →
      getClient net m siteId =
        { out := .error ("Failed to connect to site " ++ site.id ++ ": " ++ msg)
          mgr := m
          probes := 1 }) := by
  have hens : ensureInitialized m = .ok m := by
    unfold ensureInitialized
    rw [if_pos hinit]
  have hgs : getSite m siteId = .ok (site, m) := by
    unfold getSite
    simp only [hens, htid, hsite]
  refine ⟨?_, ?_, ?_⟩
  · intro c hc
    unfold getClient
    simp only [hens, hgs, hc]
  · intro hnone hprobe
    constructor
    · unfold getClient
      simp only [hens, hgs, hnone, createClient, baseClient, hprobe]
    · have hens2 : ensureInitialized
          { m with clients := mapSet m.clients site.id (baseClient site) }
          = .ok { m with clients := mapSet m.clients site.id (baseClient site) } := by
        unfold ensureInitialized
        rw [if_pos (show ({ m with
          clients := mapSet m.clients site.id (baseClient site) } : Mgr).initialized
            = true from hinit)]
      have hgs2 : getSite { m with clients := mapSet m.clients site.id (baseClient site) }
          siteId = .ok (site, { m with clients := mapSet m.clients site.id (baseClient site) }) := by
        unfold getSite
        simp only [hens2, htid, hsite]
      unfold getClient
      simp only [hens2, hgs2, mapGet_mapSet_self]
  · intro msg hnone hprobe
    unfold getClient
    simp only [hens, hgs, hnone, createClient, baseClient, hprobe]

/-- Witness for C4 at a concrete one-site manager with an empty cache: the
three clauses instantiated at `mgrA` and a healthy probe oracle. -/
theorem getClient_cache_invariant_witness :
    (∀ c, mapGet mgrA.clients siteA.id = some c →
      getClient (fun _ => none) mgrA none = { out := .ok c, mgr := mgrA, probes := 0 }) ∧
    (mapGet mgrA.clients siteA.id = none →
      (fun _ : String => (none : Option String)) (normalizeBaseURL siteA.url) = none →
      getClient (fun _ => none) mgrA none =
        { out := .ok (baseClient siteA)
          mgr := { mgrA with clients := mapSet mgrA.clients siteA.id (baseClient siteA) }
          probes := 1 } ∧
      getClient (fun _ => none)
          { mgrA with clients := mapSet mgrA.clients siteA.id (baseClient siteA) } none =
        { out := .ok (baseClient siteA)
          mgr := { mgrA with clients := mapSet mgrA.clients siteA.id (baseClient siteA) }
          probes := 0 }) ∧
    (∀ msg, mapGet mgrA.clients siteA.id = none →
      (fun _ : String => (none : Option String)) (normalizeBaseURL siteA.url) = some msg →
      getClient (fun _ => none) mgrA none =
        { out := .error ("Failed to connect to site " ++ siteA.id ++ ": " ++ msg)
          mgr := mgrA
          probes := 1 }) :=
  getClient_cache_invariant (fun _ => none) mgrA none "site1" siteA rfl rfl rfl

end McpWp
